import Mathlib

/-!
Verification development for the libcrtc build pipeline (`build.py`).

The script is straight-line Python orchestrating external commands.  We embed
its pure derivations (platform resolution, flag derivation, archive naming)
as Lean functions, and its effectful phases (dependency synchronization,
build-then-package) as functions over explicit state records, where each
external command outcome (exit status) is an input and `subprocess.check_call`
failure aborts the run (uncaught `CalledProcessError`), while
`subprocess.call` discards the exit status, exactly as in the source.
-/

/-- Result of a Python code region: either a value, or an uncaught exception
identified by its class name. -/
inductive PyResult (α : Type) where
  | ok : α → PyResult α
  | exn : String → PyResult α
deriving Repr, DecidableEq

/-- Python truthiness of `os.environ.get(k)`: `None` and the empty string are
falsy, any non-empty string is truthy (build.py lines 46, 49). -/
def pyTruthy (v : Option String) : Bool :=
  v.getD "" ≠ ""

/-- Python `str.startswith`, computed on the underlying character lists. -/
def pyStartsWith (s p : String) : Bool :=
  p.toList.isPrefixOf s.toList

/-- build.py lines 21-29: `target_platform` is `sys.platform` normalized to
`linux` / `win32` on those hosts and left as-is otherwise. -/
def targetPlatform (sysPlatform : String) : String :=
  if pyStartsWith sysPlatform "linux" then "linux"
  else if pyStartsWith sysPlatform "win32" then "win32"
  else sysPlatform

/-- build.py lines 32-37: CPU alias normalization applied to
`platform.machine()`. -/
def normalizeCpu (m : String) : String :=
  if m = "x86_64" then "x64"
  else if m = "i386" then "x86"
  else m

/-- build.py lines 31, 46-47: `target_os` starts as `target_platform`; if the
`WEBRTC_TARGET_OS` environment variable is truthy it replaces it verbatim. -/
def resolvedTargetOs (sysPlatform : String) (envOs : Option String) : String :=
  if pyTruthy envOs then envOs.getD "" else targetPlatform sysPlatform

/-- build.py lines 32-37, 49-50: `target_cpu` is the normalized machine
string; if the `WEBRTC_TARGET_CPU` environment variable is truthy it replaces
it verbatim (no further normalization). -/
def resolvedTargetCpu (machine : String) (envCpu : Option String) : String :=
  if pyTruthy envCpu then envCpu.getD "" else normalizeCpu machine

/-- build.py line 52: archive name `libcrtc-<release>-<os>-<cpu>.tar.gz`. -/
def pkg_name (releaseName targetOs targetCpu : String) : String :=
  "libcrtc-" ++ releaseName ++ "-" ++ targetOs ++ "-" ++ targetCpu ++ ".tar.gz"

/-- Helper for `pySplit`: splits a character list on whitespace runs, with the
current in-progress word accumulated in reverse. -/
def pySplitAux : List Char → List Char → List (List Char)
  | [], cur => if cur = [] then [] else [cur.reverse]
  | c :: rest, cur =>
      if c.isWhitespace then
        if cur = [] then pySplitAux rest []
        else cur.reverse :: pySplitAux rest []
      else pySplitAux rest (c :: cur)

/-- Python `str.split()` with no argument: split on whitespace runs and drop
empty pieces. -/
def pySplit (s : String) : List String :=
  (pySplitAux s.toList []).map (fun l => String.mk l)

/-- Outcome of `subprocess.check_output(['git', 'describe', '--abbrev=0',
'--tags'])`: its textual output on exit status 0, or `commandFailed`, in
which case `check_output` raises `subprocess.CalledProcessError`. -/
inductive DescribeResult where
  | output : String → DescribeResult
  | commandFailed : DescribeResult
deriving Repr, DecidableEq

/-- build.py lines 39-44: `release_name` is initialized to `master`, then
reassigned to `''.join(check_output(...).split())` inside a
`try/except ValueError`.  A non-zero exit of the tag query raises
`CalledProcessError`, which is NOT a `ValueError`, so the handler does not
catch it and the exception escapes the region. -/
def release_name (r : DescribeResult) : PyResult String :=
  match r with
  | DescribeResult.output s => PyResult.ok (String.join (pySplit s))
  | DescribeResult.commandFailed => PyResult.exn "CalledProcessError"

/-- Claim C6: CPU normalization maps x86_64 to x64 and i386 to x86, and every
other machine string passes through unchanged. -/
theorem cpu_normalization (s : String) (h1 : s ≠ "x86_64") (h2 : s ≠ "i386") :
    normalizeCpu "x86_64" = "x64" ∧ normalizeCpu "i386" = "x86" ∧
    normalizeCpu s = s := by
  refine ⟨rfl, rfl, ?_⟩
  unfold normalizeCpu
  rw [if_neg h1, if_neg h2]

/-- Witness for C6 at the concrete machine string arm64. -/
theorem cpu_normalization_witness :
    normalizeCpu "x86_64" = "x64" ∧ normalizeCpu "i386" = "x86" ∧
    normalizeCpu "arm64" = "arm64" :=
  cpu_normalization "arm64" (by decide) (by decide)

/-- Claim C7: non-empty OS and CPU override environment variables replace the
detected values literally, with no further normalization, for every host
platform and machine string. -/
theorem overrides_take_precedence (sysPlatform machine o c : String)
    (ho : o ≠ "") (hc : c ≠ "") :
    resolvedTargetOs sysPlatform (some o) = o ∧
    resolvedTargetCpu machine (some c) = c := by
  constructor
  · unfold resolvedTargetOs pyTruthy
    simp [ho]
  · unfold resolvedTargetCpu pyTruthy
    simp [hc]

/-- Witness for C7: host (linux, x64) overridden to (windows, arm64). -/
theorem overrides_take_precedence_witness :
    resolvedTargetOs "linux" (some "windows") = "windows" ∧
    resolvedTargetCpu "x86_64" (some "arm64") = "arm64" :=
  overrides_take_precedence "linux" "x86_64" "windows" "arm64"
    (by decide) (by decide)

/-- build.py line 116: the fixed baseline `--args=` string passed to `gn`. -/
def baseFlags : String :=
  "--args=rtc_include_tests=false is_component_build=false rtc_use_h264=true rtc_enable_protobuf=false treat_warnings_as_errors=false use_custom_libcxx=false"

/-- build.py lines 118-121: debug toggle, active only when `WEBRTC_DEBUG`
equals the exact string `true`. -/
def debugFlag (envDebug : Option String) : String :=
  if envDebug = some "true" then " is_debug=true" else " is_debug=false"

/-- build.py lines 123-126: flags appended when the resolved target OS is
`linux`. -/
def linuxFlags (targetOs : String) : List String :=
  if targetOs = "linux" then
    [" use_ozone=true", " is_desktop_linux=false", " rtc_use_gtk=false"]
  else []

/-- build.py lines 128-129: the explicit `target_os` flag, appended iff the
resolved target OS differs from `target_platform`. -/
def osFlag (targetOs tp : String) : List String :=
  if targetOs ≠ tp then [" target_os=\"" ++ targetOs ++ "\""] else []

/-- build.py lines 131-132: the explicit `target_cpu` flag, appended iff the
resolved target CPU differs from the RAW `platform.machine()` string (not
from its normalized form). -/
def cpuFlag (targetCpu machine : String) : List String :=
  if targetCpu ≠ machine then [" target_cpu=\"" ++ targetCpu ++ "\""] else []

/-- build.py lines 116-132: the ordered list of segments concatenated into
`gn_flags`, as a function of the host platform, the raw machine string and
the three environment variables involved. -/
def gnFlagList (sysPlatform machine : String)
    (envOs envCpu envDebug : Option String) : List String :=
  [baseFlags, debugFlag envDebug]
    ++ linuxFlags (resolvedTargetOs sysPlatform envOs)
    ++ osFlag (resolvedTargetOs sysPlatform envOs) (targetPlatform sysPlatform)
    ++ cpuFlag (resolvedTargetCpu machine envCpu) machine

/-- build.py lines 116-132: the final `gn_flags` string is the concatenation
of the segment list. -/
def gn_flags (sysPlatform machine : String)
    (envOs envCpu envDebug : Option String) : String :=
  String.join (gnFlagList sysPlatform machine envOs envCpu envDebug)

/-- build.py lines 137-140: ninja builds the `crtc-examples` target only when
`WEBRTC_EXAMPLES` equals the exact string `true`, and the library target
`crtc` otherwise. -/
def ninjaTarget (envExamples : Option String) : String :=
  if envExamples = some "true" then "crtc-examples" else "crtc"

/-- Claim C4 (code bug): when the tag query command exits non-zero,
`check_output` raises `CalledProcessError`, which the `except ValueError`
handler does not catch, so the script aborts instead of falling back to
`master`; when the query succeeds, its whitespace-stripped output is used. -/
theorem release_name_no_fallback :
    release_name DescribeResult.commandFailed = PyResult.exn "CalledProcessError" ∧
    release_name DescribeResult.commandFailed ≠ PyResult.ok "master" ∧
    release_name (DescribeResult.output "v1.0.2\n") = PyResult.ok "v1.0.2" := by
  refine ⟨rfl, by decide, ?_⟩
  decide

/-- Counterexample to claim C5 as stated: on a linux host whose machine
string is x86_64, with no override variables set, the explicit `target_cpu`
flag IS added (the code compares the normalized CPU `x64` against the raw
machine string `x86_64`), refuting "with no overrides set, neither flag is
added on any host". -/
theorem cross_flags_counterexample :
    " target_cpu=\"x64\"" ∈ gnFlagList "linux" "x86_64" none none none := by
  decide

/-- Claim C5 as amended: with no overrides, the `target_os` flag is never
added (the resolved OS equals `target_platform`), while the `target_cpu`
flag is added exactly when normalization changed the machine string, i.e.
the flag list is the base segments plus `cpuFlag (normalizeCpu m) m`, and
that segment is empty iff `normalizeCpu m = m`. -/
theorem cross_flags_no_overrides (sp m : String) (envDebug : Option String) :
    gnFlagList sp m none none envDebug =
      [baseFlags, debugFlag envDebug]
        ++ linuxFlags (targetPlatform sp)
        ++ cpuFlag (normalizeCpu m) m ∧
    (cpuFlag (normalizeCpu m) m = [] ↔ normalizeCpu m = m) := by
  constructor
  · unfold gnFlagList resolvedTargetOs resolvedTargetCpu pyTruthy osFlag
    simp
  · unfold cpuFlag
    constructor
    · intro h
      by_contra hne
      rw [if_pos hne] at h
      exact List.cons_ne_nil _ _ h
    · intro h
      rw [if_neg (by simp [h])]

/-- Claim C10: the debug and examples toggles activate only on the exact
string `true`; for every other value the flag list contains `is_debug=false`
(as its second segment) and the ninja target is the library target `crtc`. -/
theorem toggles_exact_true (envDebug envExamples : Option String)
    (hD : envDebug ≠ some "true") (hE : envExamples ≠ some "true") :
    debugFlag envDebug = " is_debug=false" ∧
    (∀ sp m envOs envCpu,
      " is_debug=false" ∈ gnFlagList sp m envOs envCpu envDebug) ∧
    ninjaTarget envExamples = "crtc" ∧
    debugFlag (some "true") = " is_debug=true" ∧
    ninjaTarget (some "true") = "crtc-examples" := by
  have hflag : debugFlag envDebug = " is_debug=false" := by
    unfold debugFlag
    rw [if_neg hD]
  refine ⟨hflag, ?_, ?_, rfl, rfl⟩
  · intro sp m envOs envCpu
    unfold gnFlagList
    rw [hflag]
    simp
  · unfold ninjaTarget
    rw [if_neg hE]

/-- Witness for C10 at the values TRUE and 1, which are not the exact string
true. -/
theorem toggles_exact_true_witness :
    debugFlag (some "TRUE") = " is_debug=false" ∧
    (∀ sp m envOs envCpu,
      " is_debug=false" ∈ gnFlagList sp m envOs envCpu (some "TRUE")) ∧
    ninjaTarget (some "1") = "crtc" ∧
    debugFlag (some "true") = " is_debug=true" ∧
    ninjaTarget (some "true") = "crtc-examples" :=
  toggles_exact_true (some "TRUE") (some "1") (by decide) (by decide)

/-- The external commands and filesystem mutations issued by the
synchronization region of build.py (lines 68-113), in source order. -/
inductive Cmd where
  | cloneDepotTools
  | fetchWebrtc
  | gitFetch
  | gitReset
  | gitCheckoutMaster
  | gitBranchList
  | gitBranchDelete
  | gitClean
  | gclientSync
  | gitCheckoutLibcrtc
  | removeBuildGn
  | symlinkCrtc
  | symlinkBuildGn
  | writeMarker
deriving Repr, DecidableEq

/-- Filesystem state consulted by the synchronization region at entry. -/
structure FS where
  depot_tools_exists : Bool
  webrtc_sync_exists : Bool
  webrtc_src_exists : Bool
  build_gn_exists : Bool
  crtc_link_exists : Bool
  branch_libcrtc_exists : Bool
deriving Repr, DecidableEq

/-- Exit status (true = exit 0) of each external command the region can
issue.  `fetch_ok` is the status of the `fetch --nohooks webrtc` call at
line 83, which the code invokes through `subprocess.call` and therefore
never reads. -/
structure CmdOutcomes where
  clone_depot_ok : Bool
  fetch_ok : Bool
  git_fetch_ok : Bool
  git_reset_ok : Bool
  git_checkout_master_ok : Bool
  git_branch_list_ok : Bool
  git_branch_delete_ok : Bool
  git_clean_ok : Bool
  gclient_sync_ok : Bool
  git_checkout_branch_ok : Bool
deriving Repr, DecidableEq

/-- Run one `subprocess.check_call`/`check_output`: record the command; a
non-zero exit raises, carrying the commands executed so far. -/
def runCheck (c : Cmd) (ok : Bool) (acc : List Cmd) :
    Except (List Cmd) (List Cmd) :=
  if ok then Except.ok (acc ++ [c]) else Except.error (acc ++ [c])

/-- build.py lines 71-72: clone depot_tools via `check_call` iff its
directory is absent. -/
def bootPhase (fs : FS) (oc : CmdOutcomes) : Except (List Cmd) (List Cmd) :=
  if fs.depot_tools_exists then Except.ok []
  else runCheck Cmd.cloneDepotTools oc.clone_depot_ok []

/-- build.py lines 87-94: bring an existing webrtc checkout to a clean
upstream state; every command here is a `check_call`/`check_output`. -/
def updateSrc (fs : FS) (oc : CmdOutcomes) (acc : List Cmd) :
    Except (List Cmd) (List Cmd) := do
  let a ← runCheck Cmd.gitFetch oc.git_fetch_ok acc
  let a ← runCheck Cmd.gitReset oc.git_reset_ok a
  let a ← runCheck Cmd.gitCheckoutMaster oc.git_checkout_master_ok a
  let a ← runCheck Cmd.gitBranchList oc.git_branch_list_ok a
  let a ← if fs.branch_libcrtc_exists then
            runCheck Cmd.gitBranchDelete oc.git_branch_delete_ok a
          else Except.ok a
  runCheck Cmd.gitClean oc.git_clean_ok a

/-- build.py lines 104-111: the workspace overlay (remove BUILD.gn if
present, link the project directory if not yet linked, link root.gn as
BUILD.gn) followed by creating the `.webrtc_sync` marker file. -/
def graftOps (fs : FS) (acc : List Cmd) : List Cmd :=
  let a := if fs.build_gn_exists then acc ++ [Cmd.removeBuildGn] else acc
  let a := if fs.crtc_link_exists then a else a ++ [Cmd.symlinkCrtc]
  a ++ [Cmd.symlinkBuildGn, Cmd.writeMarker]

/-- build.py lines 80-113: the body guarded by the absence of the sync
marker.  When the webrtc source directory is absent, the `fetch` command is
issued through `subprocess.call`, whose exit status is discarded, so the
sequence continues regardless of `oc.fetch_ok`. -/
def syncBlock (fs : FS) (oc : CmdOutcomes) (acc : List Cmd) :
    Except (List Cmd) (List Cmd) := do
  let a ← if fs.webrtc_src_exists then updateSrc fs oc acc
          else Except.ok (acc ++ [Cmd.fetchWebrtc])
  let a ← runCheck Cmd.gclientSync oc.gclient_sync_ok a
  let a ← runCheck Cmd.gitCheckoutLibcrtc oc.git_checkout_branch_ok a
  Except.ok (graftOps fs a)

/-- Result of the synchronization region: the commands executed in order,
whether an uncaught exception aborted the script, and whether the
`.webrtc_sync` marker file was written. -/
structure SyncOutcome where
  executed : List Cmd
  aborted : Bool
  markerWritten : Bool
deriving Repr, DecidableEq

/-- build.py lines 68-113: the whole synchronization region, composed of the
depot_tools bootstrap and the marker-guarded webrtc sync block. -/
def ensureWorkspace (fs : FS) (oc : CmdOutcomes) : SyncOutcome :=
  match (bootPhase fs oc).bind (fun acc =>
          if fs.webrtc_sync_exists then Except.ok acc
          else syncBlock fs oc acc) with
  | Except.error ex =>
      { executed := ex, aborted := true, markerWritten := false }
  | Except.ok ex =>
      { executed := ex, aborted := false,
        markerWritten := ex.contains Cmd.writeMarker }

/-- All external commands exit 0. -/
def ocAllOk : CmdOutcomes :=
  { clone_depot_ok := true, fetch_ok := true, git_fetch_ok := true,
    git_reset_ok := true, git_checkout_master_ok := true,
    git_branch_list_ok := true, git_branch_delete_ok := true,
    git_clean_ok := true, gclient_sync_ok := true,
    git_checkout_branch_ok := true }

/-- All commands exit 0 except the `fetch --nohooks webrtc` call. -/
def ocFetchFails : CmdOutcomes :=
  { clone_depot_ok := true, fetch_ok := false, git_fetch_ok := true,
    git_reset_ok := true, git_checkout_master_ok := true,
    git_branch_list_ok := true, git_branch_delete_ok := true,
    git_clean_ok := true, gclient_sync_ok := true,
    git_checkout_branch_ok := true }

/-- A first run in a fresh workspace: depot_tools already present, no sync
marker, no webrtc checkout yet. -/
def fsFirstRun : FS :=
  { depot_tools_exists := true, webrtc_sync_exists := false,
    webrtc_src_exists := false, build_gn_exists := false,
    crtc_link_exists := false, branch_libcrtc_exists := false }

/-- A workspace whose sync marker exists but whose depot_tools directory was
removed. -/
def fsMarkerNoDepot : FS :=
  { depot_tools_exists := false, webrtc_sync_exists := true,
    webrtc_src_exists := true, build_gn_exists := false,
    crtc_link_exists := true, branch_libcrtc_exists := false }

/-- Claim C1 (code bug): on a first run where the `fetch --nohooks webrtc`
command fails, the script nevertheless continues (its exit status is
discarded by `subprocess.call` at line 83) and writes the `.webrtc_sync`
marker, contradicting the fail-fast requirement that no sub-step failure may
persist the marker. -/
theorem fetch_failure_still_writes_marker :
    ocFetchFails.fetch_ok = false ∧
    Cmd.fetchWebrtc ∈ (ensureWorkspace fsFirstRun ocFetchFails).executed ∧
    (ensureWorkspace fsFirstRun ocFetchFails).aborted = false ∧
    (ensureWorkspace fsFirstRun ocFetchFails).markerWritten = true := by
  decide

/-- Counterexample to claim C2 as stated: with the sync marker present but
the depot_tools directory absent, the synchronization stage still performs a
VCS/network operation, namely the depot_tools clone of build.py line 72. -/
theorem marker_present_clone_counterexample :
    fsMarkerNoDepot.webrtc_sync_exists = true ∧
    Cmd.cloneDepotTools ∈ (ensureWorkspace fsMarkerNoDepot ocAllOk).executed := by
  decide

/-- Claim C2 as amended: when the sync marker exists AND the depot_tools
directory exists, the synchronization region executes no command at all,
does not abort, and does not rewrite the marker; the depot_tools bootstrap
clone is guarded only by that directory's own absence, not by the marker. -/
theorem marker_fast_path (fs : FS) (oc : CmdOutcomes)
    (h1 : fs.webrtc_sync_exists = true) (h2 : fs.depot_tools_exists = true) :
    ensureWorkspace fs oc =
      { executed := [], aborted := false, markerWritten := false } := by
  unfold ensureWorkspace bootPhase
  rw [if_pos h2]
  simp [h1, Except.bind]

/-- Witness for C2 (amended) at a concrete synchronized workspace. -/
theorem marker_fast_path_witness :
    ensureWorkspace
      { depot_tools_exists := true, webrtc_sync_exists := true,
        webrtc_src_exists := true, build_gn_exists := false,
        crtc_link_exists := true, branch_libcrtc_exists := false } ocAllOk =
      { executed := [], aborted := false, markerWritten := false } :=
  marker_fast_path _ ocAllOk rfl rfl

/-- Contents of the distribution directory: whether the root and its
`include/` and `lib/` subdirectories exist, and the names of the regular
files held directly in each of them. -/
structure DistState where
  dist_exists : Bool
  include_exists : Bool
  lib_exists : Bool
  rootFiles : List String
  includeFiles : List String
  libFiles : List String
deriving Repr, DecidableEq

/-- Copying a file into a directory: the name appears once afterwards
(`shutil.copy`/`copyfile` overwrite an existing destination). -/
def addFile (files : List String) (f : String) : List String :=
  if f ∈ files then files else files ++ [f]

/-- build.py lines 142-153: create the dist root if absent (it is never
deleted), then remove-and-recreate `include/` and `lib/`.  Files directly
under the dist root are untouched. -/
def setupDist (d : DistState) : DistState :=
  let d1 := if d.dist_exists then d else { d with dist_exists := true }
  let d2 := { d1 with include_exists := true, includeFiles := [] }
  { d2 with lib_exists := true, libFiles := [] }

/-- build.py lines 160-167: the shared-library artifact name is selected by
`sys.platform` only; hosts matching none of linux/win32/darwin copy no
artifact. -/
def sharedLibArtifact (sysPlatform : String) : Option String :=
  if pyStartsWith sysPlatform "linux" then some "libcrtc.so"
  else if pyStartsWith sysPlatform "win32" then some "libcrtc.dll"
  else if pyStartsWith sysPlatform "darwin" then some "libcrtc.dylib"
  else none

/-- build.py lines 142-169: the packaging region.  Sets up the dist
directories, copies the header, the three license files, the
platform-selected shared-library artifact (if any), and finally
`build_archive()` writes the tar file `pkg` into the dist root. -/
def packageStage (sysPlatform pkg : String) (d : DistState) : DistState :=
  let d := setupDist d
  let d := { d with includeFiles := addFile d.includeFiles "crtc.h" }
  let d := { d with
    rootFiles := addFile (addFile (addFile d.rootFiles "LICENSE")
      "WEBRTC_LICENSE") "WEBRTC_LICENSE_THIRD_PARTY" }
  let d := match sharedLibArtifact sysPlatform with
    | some a => { d with libFiles := addFile d.libFiles a }
    | none => d
  { d with rootFiles := addFile d.rootFiles pkg }

/-- Exit statuses of the two build commands, build.py lines 134 and
137-140. -/
structure BuildOutcomes where
  gn_gen_ok : Bool
  ninja_ok : Bool
deriving Repr, DecidableEq

/-- Result of the build-then-package tail of the script: the final dist
state, whether the archive call ran, whether an uncaught exception aborted
the script, and which ninja target (if any) was invoked. -/
structure PipeOutcome where
  dist : DistState
  archiveProduced : Bool
  aborted : Bool
  builtTarget : Option String
deriving Repr, DecidableEq

/-- build.py lines 134-169: `gn gen` (check_call), then ninja on the target
selected by `WEBRTC_EXAMPLES` (check_call), then the packaging region.  A
non-zero exit of either build command raises before the packaging region is
reached, leaving the dist state untouched. -/
def buildAndPackage (oc : BuildOutcomes) (envExamples : Option String)
    (sysPlatform pkg : String) (d : DistState) : PipeOutcome :=
  if oc.gn_gen_ok then
    if oc.ninja_ok then
      { dist := packageStage sysPlatform pkg d, archiveProduced := true,
        aborted := false, builtTarget := some (ninjaTarget envExamples) }
    else
      { dist := d, archiveProduced := false, aborted := true,
        builtTarget := some (ninjaTarget envExamples) }
  else
    { dist := d, archiveProduced := false, aborted := true,
      builtTarget := none }

/-- A dist directory left over from a prior packaging run: it still holds an
old archive at its root and stale files in `include/` and `lib/`. -/
def distStale : DistState :=
  { dist_exists := true, include_exists := true, lib_exists := true,
    rootFiles := ["libcrtc-old-linux-x64.tar.gz"],
    includeFiles := ["old.h"], libFiles := ["libold.so"] }

/-- Counterexample to claim C3 as stated: the dist root is not deleted, so
after the clear-then-create step an archive file left by a prior run is
still present directly under the distribution root. -/
theorem dist_root_stale_counterexample :
    "libcrtc-old-linux-x64.tar.gz" ∈ (setupDist distStale).rootFiles := by
  decide

/-- Claim C3 as amended: before packaging, `include/` and `lib/` are removed
and recreated empty and the dist root is created if absent, but the dist
root itself is never deleted: files held directly under it (such as archives
from prior runs) are preserved verbatim. -/
theorem dist_setup_clears_subdirs (d : DistState) :
    (setupDist d).dist_exists = true ∧
    (setupDist d).include_exists = true ∧
    (setupDist d).lib_exists = true ∧
    (setupDist d).includeFiles = [] ∧
    (setupDist d).libFiles = [] ∧
    (setupDist d).rootFiles = d.rootFiles := by
  unfold setupDist
  by_cases h : d.dist_exists = true
  · simp [h]
  · simp [h]

/-- Claim C8: if `gn gen` or ninja exits non-zero, the packaging region never
runs: the dist state is exactly the input state and no archive is
produced. -/
theorem build_failure_skips_packaging (oc : BuildOutcomes)
    (envExamples : Option String) (sysPlatform pkg : String) (d : DistState)
    (h : oc.gn_gen_ok = false ∨ oc.ninja_ok = false) :
    (buildAndPackage oc envExamples sysPlatform pkg d).dist = d ∧
    (buildAndPackage oc envExamples sysPlatform pkg d).archiveProduced = false ∧
    (buildAndPackage oc envExamples sysPlatform pkg d).aborted = true := by
  unfold buildAndPackage
  rcases h with h | h
  · simp [h]
  · by_cases hg : oc.gn_gen_ok = true
    · simp [hg, h]
    · simp [hg]

/-- Witness for C8: ninja fails on an otherwise successful linux run against
the stale dist directory. -/
theorem build_failure_skips_packaging_witness :
    (buildAndPackage { gn_gen_ok := true, ninja_ok := false } none "linux"
        (pkg_name "master" "linux" "x64") distStale).dist = distStale ∧
    (buildAndPackage { gn_gen_ok := true, ninja_ok := false } none "linux"
        (pkg_name "master" "linux" "x64") distStale).archiveProduced = false ∧
    (buildAndPackage { gn_gen_ok := true, ninja_ok := false } none "linux"
        (pkg_name "master" "linux" "x64") distStale).aborted = true :=
  build_failure_skips_packaging { gn_gen_ok := true, ninja_ok := false }
    none "linux" (pkg_name "master" "linux" "x64") distStale (Or.inr rfl)

/-- Claim C9: the shared-library artifact placed in `lib/` is selected by the
host platform alone — for every target OS and CPU (hence for every override
value), a linux host ships libcrtc.so, a win32 host libcrtc.dll, a darwin
host libcrtc.dylib, and a freebsd host ships no artifact while the archive
is still produced. -/
theorem artifact_keyed_by_host (tos tcpu rel : String) (d : DistState) :
    (buildAndPackage { gn_gen_ok := true, ninja_ok := true } none "linux"
        (pkg_name rel tos tcpu) d).dist.libFiles = ["libcrtc.so"] ∧
    (buildAndPackage { gn_gen_ok := true, ninja_ok := true } none "win32"
        (pkg_name rel tos tcpu) d).dist.libFiles = ["libcrtc.dll"] ∧
    (buildAndPackage { gn_gen_ok := true, ninja_ok := true } none "darwin"
        (pkg_name rel tos tcpu) d).dist.libFiles = ["libcrtc.dylib"] ∧
    (buildAndPackage { gn_gen_ok := true, ninja_ok := true } none "freebsd"
        (pkg_name rel tos tcpu) d).dist.libFiles = [] ∧
    (buildAndPackage { gn_gen_ok := true, ninja_ok := true } none "freebsd"
        (pkg_name rel tos tcpu) d).archiveProduced = true := by
  refine ⟨?_, ?_, ?_, ?_, rfl⟩ <;>
    simp [buildAndPackage, packageStage, setupDist, sharedLibArtifact,
      addFile, pyStartsWith]
